import Mathlib

/-!
Verification of the unit-conversion engine in `src/unit_conversion.py`.

The engine is modelled shallowly: numeric values are exact rationals (the
Python source computes with native floats; every claim checked here is
exact in rational arithmetic), unit names are `String`s, the two lookup
tables are association lists in source order, and the raised `ValueError`
becomes the `Except.error` branch of `Except String ℚ`.
-/

namespace UnitConversion

/-- Model of Python `str.lower()`: lowercase every character. On the ASCII
unit codes used by the tables this agrees with Python exactly. -/
def lower (s : String) : String := ⟨s.data.map Char.toLower⟩

/-- The linear factor table `CONVERSION_FACTORS` of `src/unit_conversion.py`,
entries in source order, decimal float literals read as exact rationals. -/
def CONVERSION_FACTORS : List ((String × String) × ℚ) := [
  -- Length
  (("m", "cm"), 100.0), (("cm", "m"), 0.01),
  (("m", "km"), 0.001), (("km", "m"), 1000.0),
  (("m", "in"), 39.3701), (("in", "m"), 1 / 39.3701),
  (("m", "ft"), 3.28084), (("ft", "m"), 0.3048),
  (("km", "mi"), 0.621371), (("mi", "km"), 1.60934),
  (("yd", "ft"), 3.0), (("ft", "yd"), 1 / 3.0),
  (("in", "ft"), 1 / 12.0), (("ft", "in"), 12.0),
  (("mi", "yd"), 1760.0), (("yd", "mi"), 1 / 1760.0),
  (("nm", "m"), 1e-9), (("m", "nm"), 1e9),  -- Nanometers
  (("au", "km"), 149597870.7), (("km", "au"), 1 / 149597870.7),  -- Astronomical Units
  (("ly", "km"), 9.461e12), (("km", "ly"), 1 / 9.461e12),  -- Lightyears
  -- Mass
  (("kg", "g"), 1000.0), (("g", "kg"), 0.001),
  (("kg", "lb"), 2.20462), (("lb", "kg"), 0.453592),
  (("g", "mg"), 1000.0), (("mg", "g"), 0.001),
  (("oz", "g"), 28.3495), (("g", "oz"), 1 / 28.3495),
  (("lb", "oz"), 16.0), (("oz", "lb"), 1 / 16.0),
  (("ton", "kg"), 1000.0), (("kg", "ton"), 1 / 1000.0),
  -- Derived Units
  (("n", "lbf"), 0.224809), (("lbf", "n"), 4.44822),  -- Force
  (("nm", "lb-ft"), 0.737562), (("lb-ft", "nm"), 1.35582),  -- Torque
  (("kg/m3", "lb/ft3"), 0.062428), (("lb/ft3", "kg/m3"), 16.0185)  -- Density
]

/-- The temperature table `TEMPERATURE_CONVERSIONS` of `src/unit_conversion.py`:
six affine lambdas, entries in source order. -/
def TEMPERATURE_CONVERSIONS : List ((String × String) × (ℚ → ℚ)) := [
  (("c", "f"), fun v => (v * 9 / 5) + 32),
  (("f", "c"), fun v => (v - 32) * 5 / 9),
  (("c", "k"), fun v => v + 273.15),
  (("k", "c"), fun v => v - 273.15),
  (("f", "k"), fun v => (v - 32) * 5 / 9 + 273.15),
  (("k", "f"), fun v => (v - 273.15) * 9 / 5 + 32)
]

/-- The single-quote character U+0027 as a one-character string. -/
def sq : String := String.singleton (Char.ofNat 39)

/-- The `ValueError` message the source interpolates: the text
`Conversion from ?f? to ?t? is not supported.` with `f` and `t` wrapped in
single quotes (`sq`). -/
def unsupportedMsg (f t : String) : String :=
  "Conversion from " ++ sq ++ f ++ sq ++ " to " ++ sq ++ t ++ sq ++ " is not supported."

/-- The `convert` function of `src/unit_conversion.py`: lowercase both unit
names, try the linear table, then the temperature table, else raise. -/
def convert (value : ℚ) (from_unit to_unit : String) : Except String ℚ :=
  match CONVERSION_FACTORS.lookup (lower from_unit, lower to_unit) with
  | some factor => .ok (value * factor)
  | none =>
    match TEMPERATURE_CONVERSIONS.lookup (lower from_unit, lower to_unit) with
    | some formula => .ok (formula value)
    | none => .error (unsupportedMsg (lower from_unit) (lower to_unit))

/-- Restatement of the contract the spec gives for `convert` (section 4.1,
steps 1-4), following the wording of the spec: normalize to lower case; if the pair is present
in the linear table return value times the factor immediately; otherwise if
present in the temperature table return the formula applied to the value;
otherwise fail with the unsupported-conversion message. -/
def convertSpec (value : ℚ) (from_unit to_unit : String) : Except String ℚ :=
  let fu := lower from_unit
  let tu := lower to_unit
  if h : (CONVERSION_FACTORS.lookup (fu, tu)).isSome then
    .ok (value * (CONVERSION_FACTORS.lookup (fu, tu)).get h)
  else if h2 : (TEMPERATURE_CONVERSIONS.lookup (fu, tu)).isSome then
    .ok ((TEMPERATURE_CONVERSIONS.lookup (fu, tu)).get h2 value)
  else
    .error (unsupportedMsg fu tu)

/-- Unit codes appearing anywhere in either table, in source or target
position of a key. -/
def unitCodes : List String :=
  (CONVERSION_FACTORS.map fun e => e.1.1) ++ (CONVERSION_FACTORS.map fun e => e.1.2) ++
  (TEMPERATURE_CONVERSIONS.map fun e => e.1.1) ++ (TEMPERATURE_CONVERSIONS.map fun e => e.1.2)

/-- Lowercasing a character twice is the same as lowercasing it once. -/
lemma toLower_toLower (c : Char) : c.toLower.toLower = c.toLower := by
  unfold Char.toLower
  by_cases h : c.toNat ≥ 65 ∧ c.toNat ≤ 90
  · rw [if_pos h]
    have hv : (c.toNat + 32).isValidChar := Or.inl (by omega)
    have ht : (Char.ofNat (c.toNat + 32)).toNat = c.toNat + 32 := by
      rw [Char.ofNat, dif_pos hv]
      rfl
    rw [ht, if_neg (by omega)]
  · rw [if_neg h, if_neg h]

/-- List form of the idempotence of lowercasing. -/
lemma map_toLower_idem (l : List Char) :
    (l.map Char.toLower).map Char.toLower = l.map Char.toLower := by
  induction l with
  | nil => rfl
  | cons c l ih => simp [toLower_toLower c, ih]

/-- The `lower` operation is idempotent. -/
lemma lower_idem (s : String) : lower (lower s) = lower s :=
  congrArg String.mk (map_toLower_idem s.data)

/-- Association-list lookup finds exactly the stored value when the keys are
distinct. -/
lemma lookup_eq_some_of_mem {α β : Type} [BEq α] [LawfulBEq α] :
    ∀ {l : List (α × β)}, (l.map Prod.fst).Nodup → ∀ {a : α} {b : β},
      (a, b) ∈ l → l.lookup a = some b := by
  intro l
  induction l with
  | nil => intro _ a b h; cases h
  | cons e l ih =>
    intro hnd a b h
    obtain ⟨k, v⟩ := e
    obtain ⟨hknotin, hndtail⟩ := List.nodup_cons.mp hnd
    rcases List.mem_cons.mp h with heq | hmem
    · obtain ⟨h1, h2⟩ := Prod.mk.injEq .. ▸ heq
      subst h1
      subst h2
      simp [List.lookup]
    · have hk : (a == k) = false := by
        rw [beq_eq_false_iff_ne]
        intro hak
        subst hak
        exact hknotin (List.mem_map.mpr ⟨(a, b), hmem, rfl⟩)
      simp only [List.lookup, hk]
      exact ih hndtail hmem

/-- Every key of the linear table is already lower case. -/
lemma keys_lowercase : ∀ e ∈ CONVERSION_FACTORS,
    lower e.1.1 = e.1.1 ∧ lower e.1.2 = e.1.2 := by decide

/-- The keys of the linear table are pairwise distinct. -/
lemma factors_keys_nodup : (CONVERSION_FACTORS.map Prod.fst).Nodup := by decide

/-- A unit code from the tables never pairs with itself as a key, and is
already lower case. -/
lemma unitCodes_facts : ∀ u ∈ unitCodes,
    CONVERSION_FACTORS.lookup (u, u) = none ∧
    (TEMPERATURE_CONVERSIONS.lookup (u, u)).isNone = true ∧
    lower u = u := by decide

/-- Behaviour of `convert` when the linear table has the pair. -/
lemma convert_linear (v : ℚ) {u1 u2 : String} {f : ℚ}
    (h : CONVERSION_FACTORS.lookup (lower u1, lower u2) = some f) :
    convert v u1 u2 = .ok (v * f) := by
  simp only [convert, h]

/-- Behaviour of `convert` when only the temperature table has the pair. -/
lemma convert_temp (v : ℚ) {u1 u2 : String} (g : ℚ → ℚ)
    (h1 : CONVERSION_FACTORS.lookup (lower u1, lower u2) = none)
    (h2 : TEMPERATURE_CONVERSIONS.lookup (lower u1, lower u2) = some g) :
    convert v u1 u2 = .ok (g v) := by
  simp only [convert, h1, h2]

/-- Behaviour of `convert` when neither table has the pair. -/
lemma convert_error (v : ℚ) {u1 u2 : String}
    (h1 : CONVERSION_FACTORS.lookup (lower u1, lower u2) = none)
    (h2 : TEMPERATURE_CONVERSIONS.lookup (lower u1, lower u2) = none) :
    convert v u1 u2 = .error (unsupportedMsg (lower u1) (lower u2)) := by
  simp only [convert, h1, h2]

/-- C1: `convert` lower-cases both unit strings (and applies no other
transformation), then consults the linear factor table, then the temperature
table, and otherwise fails, exactly as the four-step contract of the spec
(`convertSpec`) describes, for every rational value and every pair of
strings. -/
theorem convert_meets_spec_contract :
    ∀ (v : ℚ) (u1 u2 : String), convert v u1 u2 = convertSpec v u1 u2 := by
  intro v u1 u2
  simp only [convert, convertSpec]
  cases h : CONVERSION_FACTORS.lookup (lower u1, lower u2) with
  | some f => simp [h]
  | none =>
    cases h2 : TEMPERATURE_CONVERSIONS.lookup (lower u1, lower u2) with
    | some g => simp [h, h2]
    | none => simp [h, h2]

/-- C2: when the lower-cased pair is in neither table, `convert` fails with
the message interpolating the two normalized unit strings; in particular
`convert 1 "xx" "yy"` fails, and the message is, character for character,
the expected text with xx and yy wrapped in single quotes (code points
spelled out below, 39 being the single quote). -/
theorem unsupported_pair_error :
    (∀ (v : ℚ) (u1 u2 : String),
        CONVERSION_FACTORS.lookup (lower u1, lower u2) = none →
        TEMPERATURE_CONVERSIONS.lookup (lower u1, lower u2) = none →
        convert v u1 u2 = .error (unsupportedMsg (lower u1) (lower u2))) ∧
    convert 1 "xx" "yy" = .error (unsupportedMsg "xx" "yy") ∧
    (unsupportedMsg "xx" "yy").data.map Char.toNat =
      [67, 111, 110, 118, 101, 114, 115, 105, 111, 110, 32, 102, 114, 111, 109, 32,
       39, 120, 120, 39, 32, 116, 111, 32, 39, 121, 121, 39, 32, 105, 115, 32, 110,
       111, 116, 32, 115, 117, 112, 112, 111, 114, 116, 101, 100, 46] := by
  refine ⟨fun v u1 u2 h1 h2 => convert_error v h1 h2, rfl, rfl⟩

/-- Witness for C2: the unknown pair `("ab", "cd")` at value 2. -/
theorem unsupported_pair_error_witness :
    convert 2 "ab" "cd" = Except.error (unsupportedMsg "ab" "cd") :=
  unsupported_pair_error.1 2 "ab" "cd" rfl rfl

/-- C3: every entry of the linear factor table multiplies: if `((u1, u2), f)`
is in `CONVERSION_FACTORS` then `convert x u1 u2 = x * f` for every rational
`x` (zero, negative and large values included). -/
theorem linear_factor_multiplies :
    ∀ (u1 u2 : String) (f : ℚ), ((u1, u2), f) ∈ CONVERSION_FACTORS →
      ∀ x : ℚ, convert x u1 u2 = .ok (x * f) := by
  intro u1 u2 f hmem x
  have hlow := keys_lowercase _ hmem
  have hl : CONVERSION_FACTORS.lookup (lower u1, lower u2) = some f := by
    rw [hlow.1, hlow.2]
    exact lookup_eq_some_of_mem factors_keys_nodup hmem
  exact convert_linear x hl

/-- Witness for C3: the entry `(("m", "cm"), 100.0)` at value 3. -/
theorem linear_factor_multiplies_witness : convert 3 "m" "cm" = Except.ok 300 := by
  have h := linear_factor_multiplies "m" "cm" 100.0 (List.mem_cons_self _ _) 3
  rw [h]
  norm_num

/-- C4: each of the six temperature pairs computes exactly the listed affine
transform, for every rational input. -/
theorem temperature_formulas :
    ∀ x : ℚ,
      convert x "c" "f" = .ok ((x * 9 / 5) + 32) ∧
      convert x "f" "c" = .ok ((x - 32) * 5 / 9) ∧
      convert x "c" "k" = .ok (x + 273.15) ∧
      convert x "k" "c" = .ok (x - 273.15) ∧
      convert x "f" "k" = .ok ((x - 32) * 5 / 9 + 273.15) ∧
      convert x "k" "f" = .ok ((x - 273.15) * 9 / 5 + 32) := by
  intro x
  exact ⟨convert_temp x (fun v => (v * 9 / 5) + 32) rfl rfl,
         convert_temp x (fun v => (v - 32) * 5 / 9) rfl rfl,
         convert_temp x (fun v => v + 273.15) rfl rfl,
         convert_temp x (fun v => v - 273.15) rfl rfl,
         convert_temp x (fun v => (v - 32) * 5 / 9 + 273.15) rfl rfl,
         convert_temp x (fun v => (v - 273.15) * 9 / 5 + 32) rfl rfl⟩

/-- C5: `convert` is case-insensitive in the unit arguments, and in
particular 5 metres are 500 centimetres whichever way the units are
capitalized. -/
theorem case_insensitive :
    (∀ (x : ℚ) (u1 u2 : String),
        convert x u1 u2 = convert x (lower u1) (lower u2)) ∧
    convert 5 "M" "CM" = .ok 500 ∧ convert 5 "m" "cm" = .ok 500 := by
  refine ⟨fun x u1 u2 => ?_, ?_, ?_⟩
  · simp only [convert, lower_idem]
  · have h : CONVERSION_FACTORS.lookup (lower "M", lower "CM") = some 100.0 := rfl
    rw [convert_linear 5 h]
    norm_num
  · have h : CONVERSION_FACTORS.lookup (lower "m", lower "cm") = some 100.0 := rfl
    rw [convert_linear 5 h]
    norm_num

/-- C6: no chaining is performed: `convert 1 "ly" "m"` fails with the
unsupported-conversion error even though both `("ly", "km")` and
`("km", "m")` are present in the linear factor table. -/
theorem no_chaining :
    convert 1 "ly" "m" = Except.error (unsupportedMsg "ly" "m") ∧
    CONVERSION_FACTORS.lookup ("ly", "km") = some 9.461e12 ∧
    CONVERSION_FACTORS.lookup ("km", "m") = some 1000.0 :=
  ⟨rfl, rfl, rfl⟩

/-- C7: the four concrete scenarios hold exactly: 0 c is 32 f, 100 c is
212 f, 1000 m is 1 km, and 1 ton is 1000 kg. -/
theorem concrete_scenarios :
    convert 0 "c" "f" = .ok 32 ∧ convert 100 "c" "f" = .ok 212 ∧
    convert 1000 "m" "km" = .ok 1 ∧ convert 1 "ton" "kg" = .ok 1000 := by
  have h1 : CONVERSION_FACTORS.lookup (lower "c", lower "f") = none := rfl
  have h2 : TEMPERATURE_CONVERSIONS.lookup (lower "c", lower "f") =
      some (fun v => (v * 9 / 5) + 32) := rfl
  refine ⟨?_, ?_, ?_, ?_⟩
  · rw [convert_temp 0 (fun v => (v * 9 / 5) + 32) h1 h2]
    norm_num
  · rw [convert_temp 100 (fun v => (v * 9 / 5) + 32) h1 h2]
    norm_num
  · have h : CONVERSION_FACTORS.lookup (lower "m", lower "km") = some 0.001 := rfl
    rw [convert_linear 1000 h]
    norm_num
  · have h : CONVERSION_FACTORS.lookup (lower "ton", lower "kg") = some 1000.0 := rfl
    rw [convert_linear 1 h]
    norm_num

/-- C8: the metre/foot round trip at 100 is within 0.01 percent of 100: the
two independent factors give back 100.0000032, not exactly 100. -/
theorem round_trip_approx :
    ∃ y z : ℚ, convert 100 "m" "ft" = .ok y ∧ convert y "ft" "m" = .ok z ∧
      |z - 100| ≤ (1 / 10000) * 100 := by
  refine ⟨328.084, 328.084 * 0.3048, ?_, ?_, ?_⟩
  · have h : CONVERSION_FACTORS.lookup (lower "m", lower "ft") = some 3.28084 := rfl
    rw [convert_linear 100 h]
    norm_num
  · have h : CONVERSION_FACTORS.lookup (lower "ft", lower "m") = some 0.3048 := rfl
    rw [convert_linear 328.084 h]
  · rw [abs_le]
    norm_num

/-- C9: no key is in both tables (every temperature key misses the linear
table), and the linear table is consulted first: whenever the lower-cased
pair has a linear factor, `convert` returns value times factor regardless of
the temperature table. -/
theorem tables_disjoint_linear_precedence :
    (TEMPERATURE_CONVERSIONS.all
        (fun e => (CONVERSION_FACTORS.lookup e.1).isNone) = true) ∧
    (∀ (v : ℚ) (u1 u2 : String) (f : ℚ),
        CONVERSION_FACTORS.lookup (lower u1, lower u2) = some f →
        convert v u1 u2 = .ok (v * f)) :=
  ⟨by decide, fun v _ _ _ h => convert_linear v h⟩

/-- Witness for C9: the pair `("m", "cm")` at value 7. -/
theorem tables_disjoint_linear_precedence_witness :
    convert 7 "m" "cm" = Except.ok 700 := by
  have h := tables_disjoint_linear_precedence.2 7 "m" "cm" 100.0 rfl
  rw [h]
  norm_num

/-- C10: identity conversion is unsupported: every unit code occurring in
either table forms a self-pair that is a key of neither table, so `convert`
raises the unsupported-conversion error on it at every value. -/
theorem identity_conversion_unsupported :
    ∀ u ∈ unitCodes,
      CONVERSION_FACTORS.lookup (u, u) = none ∧
      TEMPERATURE_CONVERSIONS.lookup (u, u) = none ∧
      ∀ x : ℚ, convert x u u = .error (unsupportedMsg u u) := by
  intro u hu
  obtain ⟨h1, h2, h3⟩ := unitCodes_facts u hu
  have h2n : TEMPERATURE_CONVERSIONS.lookup (u, u) = none :=
    Option.isNone_iff_eq_none.mp h2
  refine ⟨h1, h2n, fun x => ?_⟩
  have e1 : CONVERSION_FACTORS.lookup (lower u, lower u) = none := by
    rw [h3]
    exact h1
  have e2 : TEMPERATURE_CONVERSIONS.lookup (lower u, lower u) = none := by
    rw [h3]
    exact h2n
  rw [convert_error x e1 e2, h3]

/-- Witness for C10: the unit code `"m"` at value 3. -/
theorem identity_conversion_unsupported_witness :
    convert 3 "m" "m" = Except.error (unsupportedMsg "m" "m") :=
  (identity_conversion_unsupported "m" (by decide)).2.2 3

end UnitConversion
